import Mathlib

/-!
# Verification of the barcode-scanner camera screen

Shallow embedding of `src/with-barcode-scanner/App.tsx`: the component state
(the seven `useState` hooks), the event handlers (`takePicture`, `recordVideo`,
`toggleMode`, `toggleFacing`, `toggleBarcodeScanning`, `handleBarCodeScanned`,
`scanAgain`), the render-selection expression, and the mount effect.

User taps and device callbacks are modelled as an `Event` type with a `step`
function dispatching to the handlers. `Reachable` closes the initial state
(after the mount effect) under steps; barcode-detection events carry the
delivery guard of the `onBarcodeScanned` binding
(`isBarcodeScanning && !scanningPaused`, App.tsx line 139).
-/

namespace BarcodeScannerApp

/-- `CameraMode` values `"picture" | "video"` from expo-camera. -/
inductive CameraMode where
  | picture
  | video
deriving DecidableEq

/-- `CameraType` values `"back" | "front"` from expo-camera. -/
inductive CameraType where
  | back
  | front
deriving DecidableEq

/-- The `{type, data}` payload of a decode event (`BarcodeScanningResult`). -/
structure BarcodeScanningResult where
  type : String
  data : String
deriving DecidableEq

/-- The component state: one field per `useState` hook (App.tsx lines 19-25).
`uri : string | null` becomes `Option String`; `barcodeData` likewise. -/
structure AppState where
  uri : Option String
  mode : CameraMode
  facing : CameraType
  recording : Bool
  isBarcodeScanning : Bool
  barcodeData : Option BarcodeScanningResult
  scanningPaused : Bool
deriving DecidableEq

/-- The `useState` initial values (App.tsx lines 19-25): `uri = null`,
`mode = "picture"`, `facing = "back"`, `recording = false`,
`isBarcodeScanning = false`, `barcodeData = null`, `scanningPaused = false`. -/
def initState0 : AppState :=
  { uri := none
    mode := CameraMode.picture
    facing := CameraType.back
    recording := false
    isBarcodeScanning := false
    barcodeData := none
    scanningPaused := false }

/-- The mount effect (App.tsx lines 28-30): `setIsBarcodeScanning(true)`,
run once when the component mounts. -/
def mountEffect (s : AppState) : AppState :=
  { s with isBarcodeScanning := true }

/-- The state right after mount: defaults plus the mount effect. -/
def initialState : AppState :=
  mountEffect initState0

/-- Requests the view sends to the capture device. -/
inductive DeviceReq where
  | takePhoto
  | startRecording
  | stopRecording
deriving DecidableEq

/-- `takePicture` (App.tsx lines 47-50): requests a photo and stores the
resolved `photo?.uri` (modelled as the parameter `r`) via `setUri`. -/
def takePicture (r : Option String) (s : AppState) : AppState × DeviceReq :=
  ({ s with uri := r }, DeviceReq.takePhoto)

/-- `recordVideo` (App.tsx lines 52-61): if recording, stop; else start. -/
def recordVideo (s : AppState) : AppState × DeviceReq :=
  if s.recording then
    ({ s with recording := false }, DeviceReq.stopRecording)
  else
    ({ s with recording := true }, DeviceReq.startRecording)

/-- `toggleMode` (App.tsx lines 63-70): flips `mode`; then, only when
`isBarcodeScanning` is currently true, sets it false and clears
`barcodeData`. `scanningPaused` and `recording` are not touched. -/
def toggleMode (s : AppState) : AppState :=
  let s1 := { s with
    mode := if s.mode = CameraMode.picture then CameraMode.video else CameraMode.picture }
  if s.isBarcodeScanning then
    { s1 with isBarcodeScanning := false, barcodeData := none }
  else
    s1

/-- `toggleFacing` (App.tsx lines 72-74): flips `facing`. -/
def toggleFacing (s : AppState) : AppState :=
  { s with facing := if s.facing = CameraType.back then CameraType.front else CameraType.back }

/-- `toggleBarcodeScanning` (App.tsx lines 76-80): flips `isBarcodeScanning`,
clears `barcodeData`, sets `scanningPaused` to false. -/
def toggleBarcodeScanning (s : AppState) : AppState :=
  { s with
    isBarcodeScanning := !s.isBarcodeScanning
    barcodeData := none
    scanningPaused := false }

/-- `handleBarCodeScanned` (App.tsx lines 82-88): returns unchanged if
`scanningPaused`; else records the payload and sets `scanningPaused`. -/
def handleBarCodeScanned (res : BarcodeScanningResult) (s : AppState) : AppState :=
  if s.scanningPaused then s
  else { s with barcodeData := some res, scanningPaused := true }

/-- `scanAgain` (App.tsx lines 90-93): clears `barcodeData` and `scanningPaused`. -/
def scanAgain (s : AppState) : AppState :=
  { s with barcodeData := none, scanningPaused := false }

/-- The shutter press (App.tsx line 156):
`onPress={mode === "picture" ? takePicture : recordVideo}`. The parameter `r`
is the device's resolved `photo?.uri` for the picture branch. -/
def capture (r : Option String) (s : AppState) : AppState × DeviceReq :=
  if s.mode = CameraMode.picture then takePicture r s else recordVideo s

/-- JavaScript truthiness of a `string | null` value, as used by the
conditional rendering `uri ? ... : ...` (App.tsx line 205): `null` and the
empty string are falsy. -/
def strTruthy : Option String → Bool
  | none => false
  | some u => u != ""

/-- The three mutually exclusive views. -/
inductive RenderedView where
  | photoPreview
  | barcodeResult
  | camera
deriving DecidableEq

/-- The render-selection expression (App.tsx line 205):
`uri ? renderPicture() : (barcodeData ? renderBarcodeResult() : renderCamera())`.
`barcodeData` is an object or `null`, so its truthiness is `isSome`. -/
def render (s : AppState) : RenderedView :=
  if strTruthy s.uri then RenderedView.photoPreview
  else if s.barcodeData.isSome then RenderedView.barcodeResult
  else RenderedView.camera

/-- Whether the shutter control is rendered inside the live camera view
(App.tsx line 155): `{!isBarcodeScanning && (<Pressable ...>)}`. -/
def shutterVisible (s : AppState) : Bool :=
  !s.isBarcodeScanning

/-- JavaScript `String.prototype.startsWith`, on the character sequence. -/
def strStartsWith (s p : String) : Bool :=
  p.data.isPrefixOf s.data

/-- The type-relabelling logic inlined in `renderBarcodeResult`
(App.tsx lines 110-116): `barcodeType === "ean13"` and the data starting
with `"978"` or `"979"` relabels the type as `"ISBN (EAN-13)"`. The spec
names this pure function `labelFor(type, data)`. -/
def labelFor (t d : String) : String :=
  if t == "ean13" && (strStartsWith d "978" || strStartsWith d "979") then
    "ISBN (EAN-13)"
  else
    t

/-- The discrete events the controller reacts to: the four tap handlers,
the shutter press (with the device's photo result for the picture branch),
and a decode event from the device. -/
inductive Event where
  | toggleCaptureMode
  | toggleFacingDir
  | toggleScanning
  | capture (r : Option String)
  | barcodeDetected (t d : String)
  | dismissResult
deriving DecidableEq

/-- State transition for one event, dispatching to the source handlers. -/
def step (s : AppState) : Event → AppState
  | Event.toggleCaptureMode => toggleMode s
  | Event.toggleFacingDir => toggleFacing s
  | Event.toggleScanning => toggleBarcodeScanning s
  | Event.capture r => (capture r s).1
  | Event.barcodeDetected t d => handleBarCodeScanned ⟨t, d⟩ s
  | Event.dismissResult => scanAgain s

/-- Delivery guard: decode events reach `handleBarCodeScanned` only while
`isBarcodeScanning && !scanningPaused` (the `onBarcodeScanned` binding,
App.tsx line 139). All other events are always available. -/
def eventEnabled (s : AppState) : Event → Bool
  | Event.barcodeDetected _ _ => s.isBarcodeScanning && !s.scanningPaused
  | _ => true

/-- States reachable from the mounted initial state by enabled events. -/
inductive Reachable : AppState → Prop where
  | init : Reachable initialState
  | stepTo {s : AppState} (e : Event) : Reachable s → eventEnabled s e = true →
      Reachable (step s e)

/-- Combined state invariant of every reachable state: a decoded barcode is
only held while scanning is enabled, and a paused scanner either holds a
decoded barcode or has scanning switched off. -/
theorem reachable_inv {s : AppState} (h : Reachable s) :
    (s.barcodeData.isSome = true → s.isBarcodeScanning = true) ∧
    (s.scanningPaused = true → s.barcodeData.isSome = true ∨ s.isBarcodeScanning = false) := by
  induction h with
  | init => exact ⟨by decide, by decide⟩
  | stepTo e hR hG ih =>
    obtain ⟨ih1, ih2⟩ := ih
    cases e with
    | toggleCaptureMode =>
      simp only [step, toggleMode]
      split
      · simp
      · next hns =>
        simp only [Bool.not_eq_true] at hns
        constructor
        · intro hb
          exact absurd (ih1 hb) (by simp [hns])
        · intro hp
          exact Or.inr (by simp [hns])
    | toggleFacingDir =>
      simpa [step, toggleFacing] using ⟨ih1, ih2⟩
    | toggleScanning =>
      simp [step, toggleBarcodeScanning]
    | capture r =>
      simp only [step, capture]
      split
      · simpa [takePicture] using ⟨ih1, ih2⟩
      · simp only [recordVideo]
        split
        · simpa using ⟨ih1, ih2⟩
        · simpa using ⟨ih1, ih2⟩
    | barcodeDetected t d =>
      simp only [eventEnabled, Bool.and_eq_true, Bool.not_eq_true'] at hG
      simp [step, handleBarCodeScanned, hG.2, hG.1]
    | dismissResult =>
      simp [step, scanAgain]

/-- One `toggleMode` call from a reachable state leaves scanning disabled and
no decoded barcode (the `isBarcodeScanning = false` branch relies on the
invariant that no barcode is held while scanning is off). -/
theorem toggleMode_resets {s : AppState} (h : Reachable s) :
    (step s Event.toggleCaptureMode).isBarcodeScanning = false ∧
    (step s Event.toggleCaptureMode).barcodeData = none := by
  obtain ⟨inv1, -⟩ := reachable_inv h
  cases hb : s.isBarcodeScanning with
  | true => simp [step, toggleMode, hb]
  | false =>
    have hbn : s.barcodeData = none := by
      cases hd : s.barcodeData with
      | none => rfl
      | some v => exact absurd (inv1 (by simp [hd])) (by simp [hb])
    simp [step, toggleMode, hb, hbn]

/-- Iterating `toggleMode` preserves reachability. -/
theorem reachable_toggleMode_iter {s : AppState} (h : Reachable s) (n : Nat) :
    Reachable ((fun t => step t Event.toggleCaptureMode)^[n] s) := by
  induction n with
  | zero => simpa using h
  | succ m ih =>
    rw [Function.iterate_succ_apply']
    exact Reachable.stepTo Event.toggleCaptureMode ih rfl


/-- C1: from any reachable state, after each call in any sequence of
`toggleCaptureMode` calls, `isBarcodeScanning` is false and `barcodeData`
is absent, regardless of whether scanning was enabled before the call. -/
theorem toggleCaptureMode_disables_scanning (s : AppState) (h : Reachable s)
    (n : Nat) (hn : 0 < n) :
    ((fun t => step t Event.toggleCaptureMode)^[n] s).isBarcodeScanning = false ∧
    ((fun t => step t Event.toggleCaptureMode)^[n] s).barcodeData = none := by
  obtain ⟨m, rfl⟩ : ∃ m, n = m + 1 := ⟨n - 1, by omega⟩
  rw [Function.iterate_succ_apply']
  exact toggleMode_resets (reachable_toggleMode_iter h m)

/-- Witness for C1 at the initial state with one call. -/
theorem toggleCaptureMode_disables_scanning_witness :
    0 < 1 ∧
    ((fun t => step t Event.toggleCaptureMode)^[1] initialState).isBarcodeScanning = false ∧
    ((fun t => step t Event.toggleCaptureMode)^[1] initialState).barcodeData = none :=
  ⟨by decide, toggleCaptureMode_disables_scanning initialState Reachable.init 1 (by decide)⟩

/-- C2 counterexample: scan a barcode from the initial state, then toggle the
capture mode; the resulting reachable state has `scanningPaused = true` but
no decoded barcode, because `toggleMode` clears `barcodeData` without
clearing `scanningPaused`. -/
theorem scanPaused_without_barcode_cex :
    Reachable (step (step initialState (Event.barcodeDetected "qr" "hello"))
      Event.toggleCaptureMode) ∧
    (step (step initialState (Event.barcodeDetected "qr" "hello"))
      Event.toggleCaptureMode).scanningPaused = true ∧
    (step (step initialState (Event.barcodeDetected "qr" "hello"))
      Event.toggleCaptureMode).barcodeData = none :=
  ⟨Reachable.stepTo Event.toggleCaptureMode
      (Reachable.stepTo (Event.barcodeDetected "qr" "hello") Reachable.init (by decide))
      (by decide),
    by decide, by decide⟩

/-- C2 (amended): in every reachable state, `scanningPaused = true` implies a
decoded barcode is present or scanning is disabled. -/
theorem scanPaused_implies_barcode_or_scanning_off (s : AppState) (h : Reachable s)
    (hp : s.scanningPaused = true) :
    s.barcodeData.isSome = true ∨ s.isBarcodeScanning = false :=
  (reachable_inv h).2 hp

/-- Witness for the amended C2 at the state right after a decode event. -/
theorem scanPaused_implies_barcode_or_scanning_off_witness :
    (step initialState (Event.barcodeDetected "ean8" "42")).scanningPaused = true ∧
    ((step initialState (Event.barcodeDetected "ean8" "42")).barcodeData.isSome = true ∨
      (step initialState (Event.barcodeDetected "ean8" "42")).isBarcodeScanning = false) :=
  ⟨by decide, scanPaused_implies_barcode_or_scanning_off _
    (Reachable.stepTo (Event.barcodeDetected "ean8" "42") Reachable.init (by decide))
    (by decide)⟩

/-- C10: in every reachable state (decode events being delivered only while
`isBarcodeScanning && !scanningPaused`, per the `onBarcodeScanned` binding),
a decoded barcode being present implies scanning is currently enabled. -/
theorem barcode_present_implies_scanning_enabled (s : AppState) (h : Reachable s)
    (hb : s.barcodeData.isSome = true) : s.isBarcodeScanning = true :=
  (reachable_inv h).1 hb

/-- Witness for C10 at the state right after a decode event. -/
theorem barcode_present_implies_scanning_enabled_witness :
    (step initialState (Event.barcodeDetected "qr" "content")).barcodeData.isSome = true ∧
    (step initialState (Event.barcodeDetected "qr" "content")).isBarcodeScanning = true :=
  ⟨by decide, barcode_present_implies_scanning_enabled _
    (Reachable.stepTo (Event.barcodeDetected "qr" "content") Reachable.init (by decide))
    (by decide)⟩


/-- C3 counterexample: toggle to video mode, press the shutter (recording
starts), toggle back to picture mode; the resulting reachable state has
`recording = true` while `mode = picture`, because `toggleMode` does not
reset `recording`. -/
theorem recording_in_picture_mode_cex :
    Reachable (step (step (step initialState Event.toggleCaptureMode)
      (Event.capture none)) Event.toggleCaptureMode) ∧
    (step (step (step initialState Event.toggleCaptureMode)
      (Event.capture none)) Event.toggleCaptureMode).recording = true ∧
    (step (step (step initialState Event.toggleCaptureMode)
      (Event.capture none)) Event.toggleCaptureMode).mode = CameraMode.picture :=
  ⟨Reachable.stepTo Event.toggleCaptureMode
      (Reachable.stepTo (Event.capture none)
        (Reachable.stepTo Event.toggleCaptureMode Reachable.init (by decide))
        (by decide))
      (by decide),
    by decide, by decide⟩

/-- C3 (amended): recording can only be started (false to true) by a capture
event while the mode is video; but since no operation clears `recording` on a
mode change, `recording = true` can persist after the mode returns to
picture, as the counterexample shows. -/
theorem recording_starts_only_in_video_mode (s : AppState) (e : Event)
    (hr : s.recording = false) (h : (step s e).recording = true) :
    s.mode = CameraMode.video ∧ ∃ r, e = Event.capture r := by
  cases e with
  | toggleCaptureMode =>
    simp only [step, toggleMode] at h
    split at h <;> simp_all
  | toggleFacingDir => simp [step, toggleFacing, hr] at h
  | toggleScanning => simp [step, toggleBarcodeScanning, hr] at h
  | capture r =>
    refine ⟨?_, r, rfl⟩
    simp only [step, capture] at h
    split at h
    · simp [takePicture, hr] at h
    · next hm =>
      cases hmo : s.mode with
      | picture => exact absurd hmo hm
      | video => rfl
  | barcodeDetected t d =>
    simp only [step, handleBarCodeScanned] at h
    split at h <;> simp_all
  | dismissResult => simp [step, scanAgain, hr] at h

/-- Witness for the amended C3: a capture event in video mode starts
recording. -/
theorem recording_starts_only_in_video_mode_witness :
    ({ initState0 with mode := CameraMode.video } : AppState).recording = false ∧
    (step { initState0 with mode := CameraMode.video } (Event.capture none)).recording = true ∧
    ({ initState0 with mode := CameraMode.video } : AppState).mode = CameraMode.video :=
  ⟨by decide, by decide,
    (recording_starts_only_in_video_mode { initState0 with mode := CameraMode.video }
      (Event.capture none) (by decide) (by decide)).1⟩

/-- C4 counterexample: a state whose `uri` holds the empty string has
CapturedMedia present (`isSome`), yet the render expression
`uri ? renderPicture() : ...` treats the empty string as falsy and renders
the live camera view, not the photo preview. -/
theorem render_empty_uri_cex :
    ({ initState0 with uri := some "" } : AppState).uri.isSome = true ∧
    render { initState0 with uri := some "" } = RenderedView.camera ∧
    RenderedView.camera ≠ RenderedView.photoPreview :=
  ⟨by decide, by decide, by decide⟩

/-- C4 (amended): the rendered view follows the strict priority with JS
truthiness of the uri: a present non-empty uri renders the photo preview
(even if a decoded barcode is simultaneously present); with a falsy uri, a
present decoded barcode renders the barcode result; otherwise the camera.
A capture in picture mode whose device result is `{uri: "x"}` stores
`uri = "x"` and subsequently renders the photo preview. -/
theorem render_selection_amended :
    (∀ (s : AppState) (u : String), s.uri = some u → u ≠ "" →
      render s = RenderedView.photoPreview) ∧
    (∀ s : AppState, strTruthy s.uri = false → s.barcodeData.isSome = true →
      render s = RenderedView.barcodeResult) ∧
    (∀ s : AppState, strTruthy s.uri = false → s.barcodeData = none →
      render s = RenderedView.camera) ∧
    (∀ s : AppState, s.mode = CameraMode.picture →
      (capture (some "x") s).1.uri = some "x" ∧
      render (capture (some "x") s).1 = RenderedView.photoPreview) := by
  refine ⟨?_, ?_, ?_, ?_⟩
  · intro s u hu hne
    simp [render, strTruthy, hu, hne]
  · intro s hu hb
    simp [render, hu, hb]
  · intro s hu hb
    simp [render, hu, hb]
  · intro s hm
    constructor
    · simp [capture, takePicture, hm]
    · simp [capture, takePicture, hm, render, strTruthy]

/-- Witness for the amended C4: a state holding a captured uri `"x"` and a
decoded barcode at once renders the photo preview. -/
theorem render_selection_amended_witness :
    ({ initState0 with uri := some "x", barcodeData := some ⟨"qr", "d"⟩ } : AppState).uri
      = some "x" ∧
    "x" ≠ "" ∧
    render { initState0 with uri := some "x", barcodeData := some ⟨"qr", "d"⟩ }
      = RenderedView.photoPreview :=
  ⟨rfl, by decide, render_selection_amended.1 _ "x" rfl (by decide)⟩


/-- C5: from an unpaused state, a first decode event records its payload and
pauses scanning, and an immediately following second decode event (no
intervening `dismissResult` or `toggleScanning`) leaves the state entirely
unchanged, so only the first payload is retained. -/
theorem barcode_second_detection_noop (s : AppState) (t1 d1 t2 d2 : String)
    (h : s.scanningPaused = false) :
    (handleBarCodeScanned ⟨t1, d1⟩ s).barcodeData = some ⟨t1, d1⟩ ∧
    (handleBarCodeScanned ⟨t1, d1⟩ s).scanningPaused = true ∧
    handleBarCodeScanned ⟨t2, d2⟩ (handleBarCodeScanned ⟨t1, d1⟩ s) =
      handleBarCodeScanned ⟨t1, d1⟩ s := by
  simp [handleBarCodeScanned, h]

/-- Witness for C5 at the initial state. -/
theorem barcode_second_detection_noop_witness :
    initialState.scanningPaused = false ∧
    (handleBarCodeScanned ⟨"qr", "a"⟩ initialState).barcodeData = some ⟨"qr", "a"⟩ ∧
    (handleBarCodeScanned ⟨"qr", "a"⟩ initialState).scanningPaused = true ∧
    handleBarCodeScanned ⟨"ean8", "b"⟩ (handleBarCodeScanned ⟨"qr", "a"⟩ initialState) =
      handleBarCodeScanned ⟨"qr", "a"⟩ initialState :=
  ⟨by decide, barcode_second_detection_noop initialState "qr" "a" "ean8" "b" (by decide)⟩

/-- C6: `labelFor` returns `"ISBN (EAN-13)"` on type `"ean13"` exactly when
the data starts with `"978"` or `"979"`, returns the type unchanged on every
other pair, and satisfies the three concrete examples. -/
theorem labelFor_spec :
    (∀ d : String, labelFor "ean13" d = "ISBN (EAN-13)" ↔
      (strStartsWith d "978" = true ∨ strStartsWith d "979" = true)) ∧
    (∀ t d : String,
      ¬(t = "ean13" ∧ (strStartsWith d "978" = true ∨ strStartsWith d "979" = true)) →
      labelFor t d = t) ∧
    labelFor "ean13" "9781234567897" = "ISBN (EAN-13)" ∧
    labelFor "ean13" "1234567890123" = "ean13" ∧
    labelFor "qr" "9780000000000" = "qr" := by
  refine ⟨?_, ?_, by decide, by decide, by decide⟩
  · intro d
    unfold labelFor
    cases h978 : strStartsWith d "978" <;> cases h979 : strStartsWith d "979" <;>
      simp [h978, h979]
  · intro t d h
    unfold labelFor
    by_cases ht : t = "ean13"
    · subst ht
      rw [not_and] at h
      have h2 := h rfl
      rw [not_or] at h2
      simp [Bool.not_eq_true] at h2
      simp [h2.1, h2.2]
    · have : (t == "ean13") = false := by
        simp [ht]
      simp [this]

/-- Witness for C6, instantiating the universally quantified parts. -/
theorem labelFor_spec_witness :
    (labelFor "ean13" "9790001" = "ISBN (EAN-13)" ↔
      (strStartsWith "9790001" "978" = true ∨ strStartsWith "9790001" "979" = true)) ∧
    ¬("code39" = "ean13" ∧ (strStartsWith "978" "978" = true ∨
      strStartsWith "978" "979" = true)) ∧
    labelFor "code39" "978" = "code39" :=
  ⟨labelFor_spec.1 "9790001", by decide,
    (labelFor_spec.2.1 "code39" "978") (by decide)⟩


/-- C7: a capture event while the mode is video toggles `recording` exactly
once — requesting a recording stop when recording was true and a recording
start when it was false — and leaves the mode unchanged, so successive calls
alternate start and stop. -/
theorem capture_video_toggles_recording (s : AppState) (r : Option String)
    (h : s.mode = CameraMode.video) :
    (capture r s).1.recording = !s.recording ∧
    (capture r s).1.mode = s.mode ∧
    (capture r s).2 =
      (if s.recording then DeviceReq.stopRecording else DeviceReq.startRecording) := by
  cases hr : s.recording <;> simp [capture, h, recordVideo, hr]

/-- Witness for C7 in a video-mode state. -/
theorem capture_video_toggles_recording_witness :
    ({ initState0 with mode := CameraMode.video } : AppState).mode = CameraMode.video ∧
    ((capture none { initState0 with mode := CameraMode.video }).1.recording =
        !({ initState0 with mode := CameraMode.video } : AppState).recording ∧
      (capture none { initState0 with mode := CameraMode.video }).1.mode =
        ({ initState0 with mode := CameraMode.video } : AppState).mode ∧
      (capture none { initState0 with mode := CameraMode.video }).2 =
        (if ({ initState0 with mode := CameraMode.video } : AppState).recording then
          DeviceReq.stopRecording else DeviceReq.startRecording)) :=
  ⟨by decide,
    capture_video_toggles_recording { initState0 with mode := CameraMode.video } none
      (by decide)⟩

/-- C8: from any state, `scanAgain` clears the decoded barcode and unpauses
scanning, and a decode event immediately after it is accepted: the new
payload is recorded and scanning pauses again. -/
theorem dismiss_then_detect_accepts (s : AppState) (t d : String) :
    (scanAgain s).barcodeData = none ∧
    (scanAgain s).scanningPaused = false ∧
    (handleBarCodeScanned ⟨t, d⟩ (scanAgain s)).barcodeData = some ⟨t, d⟩ ∧
    (handleBarCodeScanned ⟨t, d⟩ (scanAgain s)).scanningPaused = true := by
  simp [scanAgain, handleBarCodeScanned]

/-- C9: before the mount effect scanning is off; the mount effect enables it
with no user action, so in the initial mounted state `isBarcodeScanning` is
true, the live camera view is rendered, and the shutter control (rendered
only while `!isBarcodeScanning`) is hidden. -/
theorem initial_scanning_enabled_shutter_hidden :
    initState0.isBarcodeScanning = false ∧
    initialState.isBarcodeScanning = true ∧
    render initialState = RenderedView.camera ∧
    shutterVisible initialState = false := by
  decide

end BarcodeScannerApp
